import Mathlib

/-!
Shallow embedding of `src/main.cpp` of busyDuckman/crc-sentences.

The program enumerates candidate "autological sentences": for each 32-bit
candidate checksum value it renders the value as an 8-digit hex string,
generates one sentence per operation code, computes the CRC-32 of the
sentence and reports exact hits and near misses.

Modelling conventions: machine integers are `Nat`/`Int`.  `uint32_t`
arithmetic that provably cannot overflow in the source is modelled directly
on `Nat`; the one place a `uint32_t` is passed to an `int` parameter is
modelled by an explicit two's-complement conversion (`toInt32`).  The CRC-32
routine lives in `3rd_party/CRC.h` (outside this repository's sources) and
is treated as an opaque oracle: the classification logic is stated for an
arbitrary computed checksum value.
-/

/-- Embedding of `const int maxSentenceOperations = 0b100000000;`
(main.cpp line 29).  Note that `0b100000000` is `256`, not `512`. -/
def maxSentenceOperations : Nat := 0b100000000

/-- Embedding of `static const int nearMissDistance = 25;` (main.cpp line 32). -/
def nearMissDistance : Nat := 25

/-- Opening phrase emitted by `switch(openingPhrase)` (main.cpp lines 122-141);
`capitalFirstLetter` capitalises the phrase's first letter.  Case `0` and the
(unreachable) values `≥ 4` emit nothing. -/
def openingText (openingPhrase : Nat) (capitalFirstLetter : Bool) : String :=
  match openingPhrase with
  | 1 => (if capitalFirstLetter then "B" else "b") ++ "elieve it or not, "
  | 2 => (if capitalFirstLetter then "U" else "u") ++ "seful for testing, "
  | 3 => (if capitalFirstLetter then "H" else "h") ++ "andily, "
  | _ => ""

/-- After emitting an opening phrase the source consumes the capitalisation
flag (`capitalFirstLetter = false;`, main.cpp lines 129, 134, 139); case `0`
and values `≥ 4` leave it unchanged. -/
def capitalAfterOpening (openingPhrase : Nat) (capitalFirstLetter : Bool) : Bool :=
  match openingPhrase with
  | 1 => false
  | 2 => false
  | 3 => false
  | _ => capitalFirstLetter

/-- Sentence body: `switch(basicText)` (main.cpp lines 144-170).  Values `≥ 4`
are unreachable (the selector is masked with `0b11`) and emit nothing. -/
def bodyText (basicText : Nat) (capitalFirstLetter col : Bool) (crcString : String) : String :=
  match basicText with
  | 0 => (if capitalFirstLetter then "T" else "t") ++ "his text has a CRC of" ++
      (if col then ": " else " ") ++ crcString
  | 1 => (if capitalFirstLetter then "T" else "t") ++ "his string has a CRC of" ++
      (if col then ": " else " ") ++ crcString
  | 2 => (if capitalFirstLetter then "T" else "t") ++ "his has a CRC of" ++
      (if col then ": " else " ") ++ crcString
  | 3 => (if capitalFirstLetter then "I " else "I happen to ") ++ "have a CRC value of" ++
      (if col then ": " else " ") ++ crcString
  | _ => ""

/-- Everything `generateSentence` has written before the optional
`" and a length of "` clause: decoded bit fields (main.cpp lines 111-115),
opening phrase and body (lines 122-170). -/
def sentenceStem (operation : Nat) (crcString : String) : String :=
  let basicText := operation &&& 0b11
  let capitalFirstLetter := (operation &&& 0b100) != 0
  let col := (operation &&& 0b10000) != 0
  let openingPhrase := (operation &&& 0b1100000) >>> 5
  openingText openingPhrase capitalFirstLetter ++
    bodyText basicText (capitalAfterOpening openingPhrase capitalFirstLetter) col crcString

/-- Decimal digit count `(int) log10((double) n) + 1` (main.cpp lines 180, 184).
For every argument the source can produce (positive and far below `10^15`)
the double-precision `log10` is exact enough that this equals
`⌊log10 n⌋ + 1`, which is `Nat.log 10 n + 1`. -/
def digits10 (n : Nat) : Nat := Nat.log 10 n + 1

/-- The self-referential length computation (main.cpp lines 176-187):
`baseLen` is `out.str().length()` after `" and a length of "` has been
written, plus `1` for a pending full stop; the digit count of the number to
be appended is added, with a single second-order correction if adding it
changed the digit count. -/
def selfRefLength (baseLen : Nat) : Nat :=
  let charsToStoreLen := digits10 baseLen
  let strLen := baseLen + charsToStoreLen
  if digits10 strLen > charsToStoreLen then strLen + 1 else strLen

/-- Embedding of `generateSentence` (main.cpp lines 108-200). -/
def generateSentence (operation : Nat) (crcString : String) : String :=
  let fullStop := (operation &&& 0b1000) != 0
  let appendLength := (operation &&& 0b10000000) != 0
  let stem := sentenceStem operation crcString
  let withLen :=
    if appendLength then
      let stem2 := stem ++ " and a length of "
      stem2 ++ Nat.repr (selfRefLength (stem2.length + (if fullStop then 1 else 0)))
    else stem
  withLen ++ (if fullStop then "." else "")

/-- ASCII `toupper` from `<ctype.h>` in the default locale, as applied to the
rendered hex string (main.cpp line 295): maps `a`-`z` (codes 97-122) to
`A`-`Z` and leaves every other character unchanged. -/
def toupperChar (c : Char) : Char :=
  if 97 ≤ c.toNat && c.toNat ≤ 122 then Char.ofNat (c.toNat - 32) else c

/-- In-place per-character conversion loop
`for (auto & letter : crcString) letter = toupper(letter);` (main.cpp line 295). -/
def mapString (f : Char → Char) (s : String) : String := String.mk (s.data.map f)

/-- Lower-case hexadecimal digit as produced by `std::hex` on an output stream. -/
def hexDigitChar (n : Nat) : Char :=
  if n < 10 then Char.ofNat (48 + n) else Char.ofNat (87 + n)

/-- Minimal hexadecimal digit list (most significant digit first), structured
on a fuel argument so that it is kernel-reducible; with fuel `8` it is exact
for every value below `16^8 = 2^32`, which covers the whole `unsigned int`
range the renderer can receive. -/
def hexDigitsAux : Nat → Nat → List Char
  | 0, _ => []
  | fuel + 1, n =>
    if n < 16 then [hexDigitChar n]
    else hexDigitsAux fuel (n / 16) ++ [hexDigitChar (n % 16)]

/-- Hexadecimal digits of a 32-bit value, as printed by `std::hex`. -/
def hexDigits (n : Nat) : List Char := hexDigitsAux 8 n

/-- Embedding of `createCRCString` (main.cpp lines 284-299).  Inserting an
`int` into a stream whose basefield is `hex` prints the value converted to
`unsigned int`, i.e. `crcValue mod 2^32`; `setw(8)`/`setfill('0')` left-pads
the minimal digit string with `'0'` to (at least) 8 characters; `toupper` is
then applied in place when `upperCase` is set. -/
def createCRCString (crcValue : Int) (upperCase : Bool) : String :=
  let u : Nat := (crcValue % 4294967296).toNat
  let ds := hexDigits u
  let crcString := String.mk (List.replicate (8 - ds.length) '0' ++ ds)
  if upperCase then mapString toupperChar crcString else crcString

/-- Two's-complement conversion of the `uint32_t` loop counter `i` to the
`int` parameter of `createCRCString` at the call site (main.cpp line 229). -/
def toInt32 (i : Nat) : Int :=
  if i < 2147483648 then (i : Int) else (i : Int) - 4294967296

/-- ASCII `isalpha` from `<ctype.h>` in the default locale (main.cpp line 252). -/
def isalphaChar (c : Char) : Bool :=
  (65 ≤ c.toNat && c.toNat ≤ 90) || (97 ≤ c.toNat && c.toNat ≤ 122)

/-- Embedding of `std::count_if(crcString.begin(), crcString.end(), isalpha)`
(main.cpp line 252). -/
def countLetters (s : String) : Nat := s.data.countP isalphaChar

/-- The checksum strings the case loop `for(int c=0; c<2; c++)` actually
evaluates for candidate `i` (main.cpp lines 226-256): the lowercase rendering
is always processed; the loop breaks before the uppercase pass exactly when
the just-processed (lowercase) string contains no alphabetic character. -/
def caseStringsFor (i : Nat) : List String :=
  let lower := createCRCString (toInt32 i) false
  if countLetters lower = 0 then [lower]
  else [lower, createCRCString (toInt32 i) true]

/-- Outcome of testing one generated sentence (main.cpp lines 239-248). -/
inductive SentenceReport where
  | hit
  | nearMiss
  | silent
deriving DecidableEq

/-- Classification of one generated sentence against candidate `i`
(main.cpp lines 239-248): `crc` is the CRC-32 the oracle computed for the
sentence; `std::abs((long) crc - (long) i)` is exact 64-bit arithmetic,
modelled on `Int`. -/
def classifySentence (i crc : Nat) : SentenceReport :=
  if crc = i then SentenceReport.hit
  else if ((crc : Int) - (i : Int)).natAbs < nearMissDistance then SentenceReport.nearMiss
  else SentenceReport.silent

/-- The sentences generated and tested for one checksum string: the inner
loop `for (int operation = 0; operation < maxSentenceOperations; operation++)`
(main.cpp lines 232-236). -/
def sentencesTested (crcString : String) : List String :=
  (List.range maxSentenceOperations).map (fun op => generateSentence op crcString)

/-- The guard of the progress-reporting block:
`if(reportPercentComplete && (i % 0xff) == 0)` (main.cpp line 217); the
percentage is computed and compared only when this integer condition holds.
Note that `0xff` is `255`. -/
def reportTriggers (reportPercentComplete : Bool) (i : Nat) : Bool :=
  reportPercentComplete && (i % 0xff == 0)

/-- One execution of the progress-reporting block (main.cpp lines 216-223)
at loop index `i`.  Returns the new value of the shared `percentComplete`
variable and `some p` when the line `p% complete.` is printed.  The
percentage itself is computed at line 218 as
`(int)((((double) i-start_inc) / (double)(end_ex - start_inc)) * 100.0)`;
floating-point arithmetic is outside this embedding, so — exactly as with
the CRC routine — that expression is abstracted as an oracle `percentOf`
applied to precisely the data the expression reads: the calling worker's own
`start_inc` and `end_ex` and the loop index `i` (it reads no cross-worker
state).  The guard, the change comparison, the shared-variable update and
the print decision are integer code and are modelled exactly. -/
def reportStep (percentOf : Nat → Nat → Nat → Int) (reportPercentComplete : Bool)
    (start_inc end_ex i : Nat) (percentComplete : Int) : Int × Option Int :=
  if reportTriggers reportPercentComplete i then
    let per : Int := percentOf start_inc end_ex i
    if per != percentComplete then (per, some per) else (percentComplete, none)
  else (percentComplete, none)

/-- Embedding of `uint32_t start = 0;` (main.cpp line 69). -/
def searchStart : Nat := 0

/-- Embedding of `uint32_t length = 0xffffffff;` (main.cpp line 70).
Note that `0xffffffff` is `2^32 - 1`, not `2^32`. -/
def searchLength : Nat := 0xffffffff

/-- Embedding of `uint32_t bucketSize = length / numThreads;` (main.cpp line 71). -/
def bucketSize (numThreads : Nat) : Nat := searchLength / numThreads

/-- Embedding of `uint32_t tStart = start + (i * bucketSize);` (main.cpp
line 79).  For `i < numThreads` this never exceeds `2^32 - 1`, so the
`uint32_t` arithmetic never wraps and `Nat` models it exactly. -/
def tStart (numThreads i : Nat) : Nat := searchStart + i * bucketSize numThreads

/-- Embedding of `uint32_t tEnd = std::min(tStart+bucketSize, start+length);`
(main.cpp line 80); again the `uint32_t` arithmetic cannot wrap. -/
def tEnd (numThreads i : Nat) : Nat :=
  min (tStart numThreads i + bucketSize numThreads) (searchStart + searchLength)

/-- The half-open ranges `[tStart, tEnd)` handed to the `numThreads` workers
by the launch loop (main.cpp lines 77-87). -/
def workerRanges (numThreads : Nat) : List (Nat × Nat) :=
  (List.range numThreads).map (fun i => (tStart numThreads i, tEnd numThreads i))

/-- Whether value `v` lies in one of the half-open worker ranges. -/
def coveredBy (ranges : List (Nat × Nat)) (v : Nat) : Bool :=
  ranges.any (fun r => decide (r.1 ≤ v) && decide (v < r.2))

/-- Modelled from the claim's words (refinement target for C10): the 8-digit
zero-padded hexadecimal representation of the original unsigned 32-bit value,
in the requested letter case. -/
def specHexString8 (i : Nat) (upperCase : Bool) : String :=
  let ds := hexDigits i
  let s := String.mk (List.replicate (8 - ds.length) '0' ++ ds)
  if upperCase then mapString toupperChar s else s

/-- Claim C8: the sentence encoder applied to operation code 0 together with
the checksum string "00000000" returns exactly
"this text has a CRC of 00000000". -/
theorem crc_C8 : generateSentence 0 "00000000" = "this text has a CRC of 00000000" := by
  decide

/-- Claim C9: the sentence encoder applied to the operation code with
body-template selector 3, capitalize-first-letter, full-stop and colon flags
set, no opening phrase and no length clause (that code is 31 = 0b11111),
together with the checksum string "CAFEBABE", returns exactly
"I have a CRC value of: CAFEBABE.". -/
theorem crc_C9 : generateSentence 0b11111 "CAFEBABE" = "I have a CRC value of: CAFEBABE." := by
  decide

/-- Claim C1 (evaluation of the failing behaviour): no worker range ever
contains the value `2^32 - 1 = 4294967295` for any thread count, and with
2 threads the launched ranges are `[0, 2147483647)` and
`[2147483647, 4294967294)`, so the last range's end is `4294967294`, not
`2^32`, and the values `4294967294` and `4294967295` are never searched. -/
theorem crc_C1_bug :
    (∀ numThreads : Nat, coveredBy (workerRanges numThreads) 4294967295 = false) ∧
    workerRanges 2 = [(0, 2147483647), (2147483647, 4294967294)] ∧
    coveredBy (workerRanges 2) 4294967294 = false ∧
    tEnd 2 1 = 4294967294 := by
  refine ⟨?_, by decide, by decide, by decide⟩
  intro n
  unfold coveredBy
  rw [List.any_eq_false]
  intro r hr
  simp only [workerRanges, List.mem_map, List.mem_range] at hr
  obtain ⟨i, _, rfl⟩ := hr
  have hle : tEnd n i ≤ searchStart + searchLength :=
    Nat.min_le_right _ _
  simp only [searchStart, searchLength] at hle
  simp only [Bool.and_eq_true, decide_eq_true_eq, not_and]
  intro _
  omega

/-- Claim C2 (counterexample): `maxSentenceOperations` is `256`, not `512`;
operation code `511` (which lies in `[0, 512)`) is never enumerated, and the
operation loop generates exactly `256` sentences per checksum string. -/
theorem crc_C2_cex :
    maxSentenceOperations = 256 ∧
    (maxSentenceOperations == 512) = false ∧
    (List.range maxSentenceOperations).contains 511 = false ∧
    (sentencesTested "00000000").length = 256 := by
  refine ⟨rfl, rfl, by decide, ?_⟩
  simp [sentencesTested, maxSentenceOperations]

/-- Claim C2 (amended): operation codes range over `[0, 256)` (8 bits), and
for each checksum string the search worker enumerates every operation code
in `[0, 256)`, generating one sentence per code. -/
theorem crc_C2_amended :
    maxSentenceOperations = 256 ∧
    (∀ op : Nat, op ∈ List.range maxSentenceOperations ↔ op < 256) ∧
    (∀ s : String, sentencesTested s = (List.range 256).map (fun op => generateSentence op s)) ∧
    (∀ s : String, (sentencesTested s).length = 256) := by
  refine ⟨rfl, ?_, fun s => rfl, ?_⟩
  · intro op
    simp [List.mem_range, maxSentenceOperations]
  · intro s
    simp [sentencesTested, maxSentenceOperations]

/-- Claim C4: a sentence whose computed checksum is `crc` is classified as a
hit exactly when `crc = i`, as a near miss exactly when the absolute
difference is nonzero and strictly below 25, and never as both. -/
theorem crc_C4 (i crc : Nat) :
    (classifySentence i crc = SentenceReport.hit ↔ crc = i) ∧
    (classifySentence i crc = SentenceReport.nearMiss ↔
      crc ≠ i ∧ ((crc : Int) - (i : Int)).natAbs < 25) ∧
    ¬ (classifySentence i crc = SentenceReport.hit ∧
        classifySentence i crc = SentenceReport.nearMiss) := by
  unfold classifySentence nearMissDistance
  by_cases h1 : crc = i
  · simp [h1]
  · by_cases h2 : ((crc : Int) - (i : Int)).natAbs < 25 <;> simp [h1, h2]

/-- Claim C4 witness: instantiation at `i = 7`, `crc = 12`. -/
theorem crc_C4_witness :
    (classifySentence 7 12 = SentenceReport.hit ↔ (12 : Nat) = 7) ∧
    (classifySentence 7 12 = SentenceReport.nearMiss ↔
      (12 : Nat) ≠ 7 ∧ (((12 : Nat) : Int) - ((7 : Nat) : Int)).natAbs < 25) ∧
    ¬ (classifySentence 7 12 = SentenceReport.hit ∧
        classifySentence 7 12 = SentenceReport.nearMiss) :=
  crc_C4 7 12

/-- One-step unfolding of `hexDigitsAux` at positive fuel. -/
theorem hexDigitsAux_succ (fuel n : Nat) :
    hexDigitsAux (fuel + 1) n =
      if n < 16 then [hexDigitChar n]
      else hexDigitsAux fuel (n / 16) ++ [hexDigitChar (n % 16)] := rfl

/-- With fuel `fuel + 1`, the hex digit list of any `n < 16 ^ (fuel + 1)` has
between `1` and `fuel + 1` digits. -/
theorem hexDigitsAux_length (fuel : Nat) :
    ∀ n : Nat, n < 16 ^ (fuel + 1) →
      1 ≤ (hexDigitsAux (fuel + 1) n).length ∧ (hexDigitsAux (fuel + 1) n).length ≤ fuel + 1 := by
  induction fuel with
  | zero =>
    intro n hn
    have h : n < 16 := by simpa using hn
    rw [hexDigitsAux_succ, if_pos h]
    simp
  | succ f ih =>
    intro n hn
    by_cases h : n < 16
    · rw [hexDigitsAux_succ, if_pos h]
      simp
    · have hdiv : n / 16 < 16 ^ (f + 1) := by
        rw [Nat.div_lt_iff_lt_mul (by norm_num : 0 < 16)]
        calc n < 16 ^ (f + 2) := hn
          _ = 16 ^ (f + 1) * 16 := by ring
      have hlen := ih (n / 16) hdiv
      rw [hexDigitsAux_succ, if_neg h]
      simp only [List.length_append, List.length_cons, List.length_nil]
      omega

/-- Claim C6: the checksum string renderer always returns a string of exactly
8 characters, and `render(0, false) = "00000000"`,
`render(0xDEADBEEF, true) = "DEADBEEF"` (where the `uint32_t` arguments pass
through the two's-complement conversion to the renderer's `int` parameter). -/
theorem crc_C6 :
    (∀ (v : Int) (c : Bool), (createCRCString v c).length = 8) ∧
    createCRCString (toInt32 0) false = "00000000" ∧
    createCRCString (toInt32 0xDEADBEEF) true = "DEADBEEF" := by
  refine ⟨?_, by decide, by decide⟩
  intro v c
  have h1 : 0 ≤ v % 4294967296 := Int.emod_nonneg v (by norm_num)
  have h2 : v % 4294967296 < 4294967296 := Int.emod_lt_of_pos v (by norm_num)
  have hu : (v % 4294967296).toNat < 4294967296 := by omega
  have h16 : (16 : Nat) ^ (7 + 1) = 4294967296 := by norm_num
  have hlen := hexDigitsAux_length 7 ((v % 4294967296).toNat) (h16 ▸ hu)
  norm_num at hlen
  unfold createCRCString hexDigits
  cases c <;>
    simp only [if_true, if_false, Bool.false_eq_true, mapString, String.length,
      List.length_map, List.length_append, List.length_replicate, ite_false, ite_true] <;>
    omega

/-- Claim C10: for every 32-bit unsigned candidate value, including values at
or above `2^31` that wrap to a negative `int` at the renderer's parameter,
the rendered checksum string equals the 8-digit zero-padded hexadecimal
representation of the original unsigned value in the requested case. -/
theorem crc_C10 (i : Nat) (hi : i < 4294967296) (c : Bool) :
    createCRCString (toInt32 i) c = specHexString8 i c := by
  have h : ((toInt32 i) % 4294967296).toNat = i := by
    unfold toInt32
    split <;> omega
  unfold createCRCString specHexString8
  rw [h]

/-- Claim C10 witness: instantiation at `i = 0xDEADBEEF = 3735928559 ≥ 2^31`,
whose conversion to `int` is the negative number `-559038737`. -/
theorem crc_C10_witness :
    createCRCString (toInt32 3735928559) false = specHexString8 3735928559 false :=
  crc_C10 3735928559 (by norm_num) false

/-- ASCII `toupper` fixes every non-alphabetic character. -/
theorem toupperChar_eq_self (c : Char) (h : isalphaChar c = false) : toupperChar c = c := by
  unfold isalphaChar at h
  rw [Bool.or_eq_false_iff] at h
  unfold toupperChar
  rw [h.2]
  simp

/-- A character list with no alphabetic characters is fixed by `toupper`. -/
theorem list_toupper_id (l : List Char) (h : l.countP isalphaChar = 0) :
    l.map toupperChar = l := by
  have hall := List.countP_eq_zero.mp h
  calc l.map toupperChar = l.map id :=
        List.map_congr_left (fun c hc => by
          rw [toupperChar_eq_self c (by simpa using hall c hc)]
          rfl)
    _ = l := List.map_id l

/-- A string with no alphabetic characters is fixed by the in-place
`toupper` conversion loop. -/
theorem mapString_toupper_id (s : String) (h : countLetters s = 0) :
    mapString toupperChar s = s := by
  obtain ⟨l⟩ := s
  show String.mk (l.map toupperChar) = String.mk l
  rw [list_toupper_id l h]

/-- Claim C5: for a candidate `i` whose lowercase rendering contains no
alphabetic characters, the case loop evaluates only the lowercase pass, and
nothing is lost since the uppercase rendering is byte-identical. -/
theorem crc_C5 (i : Nat) (_hi : i < 4294967296)
    (h0 : countLetters (createCRCString (toInt32 i) false) = 0) :
    caseStringsFor i = [createCRCString (toInt32 i) false] ∧
    createCRCString (toInt32 i) true = createCRCString (toInt32 i) false := by
  constructor
  · unfold caseStringsFor
    rw [if_pos h0]
  · have hW : createCRCString (toInt32 i) true =
        mapString toupperChar (createCRCString (toInt32 i) false) := rfl
    rw [hW, mapString_toupper_id _ h0]

/-- Claim C5 witness: instantiation at `i = 0`, whose lowercase rendering
"00000000" has no letters. -/
theorem crc_C5_witness :
    caseStringsFor 0 = [createCRCString (toInt32 0) false] ∧
    createCRCString (toInt32 0) true = createCRCString (toInt32 0) false :=
  crc_C5 0 (by norm_num) (by decide)

/-- Claim C7 (counterexample): with the reporter flag set, the guard of the
progress block holds at `i = 255` — which is not a multiple of 256 — and
fails at `i = 256` — which is a multiple of 256: the source's trigger is
`(i % 0xff) == 0`, i.e. multiples of 255, so the percentage is not computed
exactly at the multiples of 256. -/
theorem crc_C7_cex :
    reportTriggers true 255 = true ∧
    (255 % 256 == 0) = false ∧
    reportTriggers true 256 = false ∧
    (256 % 256 == 0) = true := by
  decide

/-- Claim C7 (amended): when the worker is the designated reporter, the
progress percentage is computed exactly when `i` is a multiple of 255
(`i % 0xff == 0`); the value computed, stored and printed is the
double-precision percentage expression evaluated on the calling worker's own
range bounds `s`, `e` and on `i` only (never on another worker's range or on
global progress), modelled by the oracle `percentOf`; and a line is printed
exactly when that value differs from the last reported percentage. -/
theorem crc_C7_amended (percentOf : Nat → Nat → Nat → Int) (r : Bool)
    (s e i : Nat) (st : Int) :
    (reportTriggers r i = true ↔ r = true ∧ i % 255 = 0) ∧
    ((reportStep percentOf r s e i st).2 ≠ none ↔
      reportTriggers r i = true ∧ percentOf s e i ≠ st) ∧
    ((reportStep percentOf r s e i st).2 ≠ none →
      (reportStep percentOf r s e i st).2 = some (percentOf s e i) ∧
      (reportStep percentOf r s e i st).1 = percentOf s e i) ∧
    ((reportStep percentOf r s e i st).2 = none →
      (reportStep percentOf r s e i st).1 = st) := by
  unfold reportStep reportTriggers
  cases r
  · simp
  · by_cases hmod : i % 255 = 0
    · by_cases hper : percentOf s e i = st
      · simp [hmod, hper, bne_iff_ne]
      · simp [hmod, hper, bne_iff_ne]
    · simp [hmod]

/-- Claim C7 witness: instantiation at the constant-zero percentage oracle,
a reporter worker with range `[0, 100)`, index `0` and shared state `-1`. -/
theorem crc_C7_amended_witness :
    (reportTriggers true 0 = true ↔ true = true ∧ 0 % 255 = 0) ∧
    ((reportStep (fun _ _ _ => (0 : Int)) true 0 100 0 (-1)).2 ≠ none ↔
      reportTriggers true 0 = true ∧ (fun _ _ _ => (0 : Int)) 0 100 0 ≠ -1) ∧
    ((reportStep (fun _ _ _ => (0 : Int)) true 0 100 0 (-1)).2 ≠ none →
      (reportStep (fun _ _ _ => (0 : Int)) true 0 100 0 (-1)).2 =
        some ((fun _ _ _ => (0 : Int)) 0 100 0) ∧
      (reportStep (fun _ _ _ => (0 : Int)) true 0 100 0 (-1)).1 =
        (fun _ _ _ => (0 : Int)) 0 100 0) ∧
    ((reportStep (fun _ _ _ => (0 : Int)) true 0 100 0 (-1)).2 = none →
      (reportStep (fun _ _ _ => (0 : Int)) true 0 100 0 (-1)).1 = -1) :=
  crc_C7_amended (fun _ _ _ => (0 : Int)) true 0 100 0 (-1)

/-- The length of the generated body is the length of the body generated for
the empty checksum string plus the checksum string's length (the checksum
string is inserted verbatim, exactly once). -/
theorem bodyText_len (bt : Nat) (hb : bt ≤ 3) (cap col : Bool) (s : String) :
    (bodyText bt cap col s).length = (bodyText bt cap col "").length + s.length := by
  interval_cases bt <;> cases cap <;> cases col <;>
    simp only [bodyText, String.length_append, String.length_empty] <;> omega

/-- Length bounds for the body clause (without the checksum string): between
"this has a CRC of " (18) and "I happen to have a CRC value of: " (33). -/
theorem bodyText_bounds (bt : Nat) (hb : bt ≤ 3) (cap col : Bool) :
    18 ≤ (bodyText bt cap col "").length ∧ (bodyText bt cap col "").length ≤ 33 := by
  interval_cases bt <;> cases cap <;> cases col <;> decide

/-- The opening phrase has at most 20 characters ("Useful for testing, "). -/
theorem openingText_bounds (o : Nat) (c : Bool) : (openingText o c).length ≤ 20 := by
  rcases o with _ | _ | _ | _ | o <;> cases c <;> simp [openingText] <;> decide

/-- The sentence stem's length splits into a part independent of the checksum
string plus the checksum string's length. -/
theorem sentenceStem_length (op : Nat) (s : String) :
    (sentenceStem op s).length = (sentenceStem op "").length + s.length := by
  simp only [sentenceStem, String.length_append]
  rw [bodyText_len _ Nat.and_le_right _ _ s]
  omega

/-- Length bounds for the sentence stem over the empty checksum string. -/
theorem sentenceStem_bounds (op : Nat) :
    18 ≤ (sentenceStem op "").length ∧ (sentenceStem op "").length ≤ 53 := by
  have hb := bodyText_bounds (op &&& 3) Nat.and_le_right
    (capitalAfterOpening ((op &&& 96) >>> 5) ((op &&& 4) != 0)) ((op &&& 16) != 0)
  have ho := openingText_bounds ((op &&& 96) >>> 5) ((op &&& 4) != 0)
  simp only [sentenceStem, String.length_append]
  omega

/-- Two-digit decimal range for the code's digit-count estimate. -/
theorem digits10_eq_two (n : Nat) (h1 : 10 ≤ n) (h2 : n ≤ 99) : digits10 n = 2 := by
  have hpow : n < 10 ^ (1 + 1) := by norm_num; omega
  have hlog : Nat.log 10 n = 1 :=
    Nat.log_eq_of_pow_le_of_lt_pow (by simpa using h1) hpow
  unfold digits10
  omega

/-- The decimal rendering of a two-digit number has two characters. -/
theorem reprLen_two (n : Nat) (h1 : 40 ≤ n) (h2 : n ≤ 99) : (Nat.repr n).length = 2 := by
  interval_cases n <;> rfl

/-- For base lengths in the range this sentence grammar can produce, the
self-referential length computation lands exactly two characters above the
base, and those two extra characters are exactly the decimal rendering of the
result. -/
theorem selfRefLength_core (b : Nat) (h1 : 43 ≤ b) (h2 : b ≤ 79) :
    selfRefLength b = b + 2 ∧ (Nat.repr (selfRefLength b)).length = 2 := by
  have hd : digits10 b = 2 := digits10_eq_two b (by omega) (by omega)
  have hd2 : digits10 (b + 2) = 2 := digits10_eq_two _ (by omega) (by omega)
  have hsr : selfRefLength b = b + 2 := by
    simp only [selfRefLength, hd, hd2]
    simp
  refine ⟨hsr, ?_⟩
  rw [hsr]
  exact reprLen_two _ (by omega) (by omega)

/-- Claim C3: for every operation code with the append-length flag (bit 7)
set and every 8-character checksum string, the decimal number appended after
" and a length of " equals the generated sentence's actual total character
count, including the trailing full stop when the full-stop flag is set: the
generated sentence decomposes as the stem, the literal clause, the decimal
rendering of its own total length, and the optional full stop. -/
theorem crc_C3 (op : Nat) (s : String) (h7 : op &&& 128 ≠ 0) (hs : s.length = 8) :
    generateSentence op s =
      sentenceStem op s ++ " and a length of " ++
        Nat.repr ((generateSentence op s).length) ++
        (if (op &&& 8) != 0 then "." else "") := by
  have hApp : ((op &&& 128) != 0) = true := by simpa [bne_iff_ne] using h7
  have hstem8 : (sentenceStem op s).length = (sentenceStem op "").length + 8 := by
    rw [sentenceStem_length op s, hs]
  obtain ⟨hlo, hhi⟩ := sentenceStem_bounds op
  have hlit : (" and a length of " : String).length = 17 := rfl
  have hdot : ("." : String).length = 1 := rfl
  cases hfs : ((op &&& 8) != 0) with
  | true =>
    show generateSentence op s =
      sentenceStem op s ++ " and a length of " ++
        Nat.repr ((generateSentence op s).length) ++ "."
    have hGen : generateSentence op s =
        sentenceStem op s ++ " and a length of " ++
          Nat.repr (selfRefLength ((sentenceStem op s ++ " and a length of ").length + 1)) ++
          "." := by
      simp [generateSentence, hApp, hfs]
    have hb : (sentenceStem op s ++ " and a length of ").length + 1 =
        (sentenceStem op "").length + 26 := by
      rw [String.length_append, hstem8, hlit]
    obtain ⟨hsr, hrl⟩ := selfRefLength_core ((sentenceStem op "").length + 26)
      (by omega) (by omega)
    rw [hsr] at hrl
    have hlen : (generateSentence op s).length =
        selfRefLength ((sentenceStem op s ++ " and a length of ").length + 1) := by
      rw [hGen, hb, hsr]
      simp only [String.length_append]
      rw [hstem8, hlit, hdot, hrl]
    rw [hlen]
    exact hGen
  | false =>
    show generateSentence op s =
      sentenceStem op s ++ " and a length of " ++
        Nat.repr ((generateSentence op s).length) ++ ""
    have hGen : generateSentence op s =
        sentenceStem op s ++ " and a length of " ++
          Nat.repr (selfRefLength ((sentenceStem op s ++ " and a length of ").length)) ++
          "" := by
      simp [generateSentence, hApp, hfs]
    have hb : (sentenceStem op s ++ " and a length of ").length =
        (sentenceStem op "").length + 25 := by
      rw [String.length_append, hstem8, hlit]
    obtain ⟨hsr, hrl⟩ := selfRefLength_core ((sentenceStem op "").length + 25)
      (by omega) (by omega)
    rw [hsr] at hrl
    have hlen : (generateSentence op s).length =
        selfRefLength ((sentenceStem op s ++ " and a length of ").length) := by
      rw [hGen, hb, hsr]
      simp only [String.length_append, String.length_empty]
      rw [hstem8, hlit, hrl]
    rw [hlen]
    exact hGen

/-- Claim C3 witness: instantiation at operation code `136` (append-length
and full-stop flags set) and checksum string "00000000". -/
theorem crc_C3_witness :
    generateSentence 136 "00000000" =
      sentenceStem 136 "00000000" ++ " and a length of " ++
        Nat.repr ((generateSentence 136 "00000000").length) ++
        (if (136 &&& 8) != 0 then "." else "") :=
  crc_C3 136 "00000000" (by decide) (by decide)
